import Mathlib

/-!
Verification of `src/flip_image.py` (image flipping CLI with pillow and
opencv backends) against its natural-language specification.

The Python module is shallowly embedded: images are grids of pixels
(`List (List Nat)`), the filesystem is an association list from path
strings to file contents, Python exceptions become `Except String`,
and console output becomes explicit lists of log lines.
-/

namespace FlipImage

/-- Python `str.lower()`, faithful for the ASCII strings this program uses. -/
def pyLower (s : String) : String := ⟨s.data.map Char.toLower⟩

/-- Python `str.upper()`, faithful for the ASCII strings this program uses. -/
def pyUpper (s : String) : String := ⟨s.data.map Char.toUpper⟩

/-- `SUPPORTED_EXTS` from `flip_image.py` line 13. -/
def SUPPORTED_EXTS : List String :=
  [".jpg", ".jpeg", ".png", ".bmp", ".gif", ".tiff", ".webp"]

/-- A decoded pixel grid: a list of rows, each row a list of pixel values. -/
abbrev Pixels := List (List Nat)

/-- Pillow `Image.FLIP_LEFT_RIGHT`: mirror left-right, reversing each row. -/
def flipLeftRight (img : Pixels) : Pixels := img.map List.reverse

/-- Pillow `Image.FLIP_TOP_BOTTOM`: mirror top-bottom, reversing the row order. -/
def flipTopBottom (img : Pixels) : Pixels := img.reverse

/-- Pillow `Image.ROTATE_180`: rotate 180 degrees, reversing both axes. -/
def rotate180 (img : Pixels) : Pixels := img.reverse.map List.reverse

/-- Embedding of `flip_pillow` (`flip_image.py` lines 16-26): lowercase the
mode, dispatch to the three transposes, raise `ValueError` otherwise. -/
def flip_pillow (img : Pixels) (mode : String) : Except String Pixels :=
  let m := pyLower mode
  if m = "horizontal" then .ok (flipLeftRight img)
  else if m = "vertical" then .ok (flipTopBottom img)
  else if m = "both" then .ok (rotate180 img)
  else .error "Unknown mode. Choose from horizontal|vertical|both"

/-- A decoded Pillow image handle: pixel data, the `format` attribute, and the
`info` dictionary entries the program reads (`icc_profile` and `exif` blobs). -/
structure ImageData where
  pixels : Pixels
  format : Option String
  icc_profile : Option (List Nat)
  exif : Option (List Nat)
deriving DecidableEq, Repr
/-- Contents of a file on disk: either bytes that decode to an image (an image
written by Pillow additionally records the save keywords `quality` and
`subsampling`), or bytes no codec can parse. -/
inductive FileData where
  | image (data : ImageData) (quality : Option Nat) (subsampling : Option Nat)
  | corrupt (bytes : List Nat)
deriving DecidableEq, Repr
/-- The filesystem: an association list from path to file contents; a write
prepends, a lookup returns the most recent write. -/
abbrev FS := List (String × FileData)

/-- Look a path up in the filesystem. -/
def fsRead (fs : FS) (p : String) : Option FileData :=
  match fs with
  | [] => none
  | (q, d) :: rest => if q = p then some d else fsRead rest p

/-- Write a file (creating or truncating it). -/
def fsWrite (p : String) (d : FileData) (fs : FS) : FS := (p, d) :: fs

/-- `Image.open`: succeeds on decodable bytes, raises on corrupt bytes or a
missing path. -/
def imageOpen (fs : FS) (p : String) : Except String ImageData :=
  match fsRead fs p with
  | some (.image d _ _) => .ok d
  | some (.corrupt _) => .error ("cannot identify image file " ++ p)
  | none => .error ("No such file or directory: " ++ p)

/-- The keyword arguments `save_pillow_with_exif` accumulates in `save_kwargs`
before calling `img.save` (`flip_image.py` lines 56-73). -/
structure SaveKwargs where
  format : Option String
  quality : Option Nat
  subsampling : Option Nat
  icc_profile : Option (List Nat)
  exif : Option (List Nat)
deriving DecidableEq, Repr
/-- The `save_kwargs` computation of `save_pillow_with_exif` (`flip_image.py`
lines 56-73): `fmt = original.format if original and original.format else None`
(Python truthiness: a `None` original, a `None` format and an empty-string
format all yield `None`); JPEG/JPG formats get `quality=95, subsampling=0`;
the `icc_profile` and `exif` entries of `original.info` are copied when
present (`original.info` on a `None` original raises `AttributeError`, which
the `except: pass` swallows, leaving both unset). -/
def save_kwargs_for (original : Option ImageData) : SaveKwargs :=
  let fmt : Option String :=
    match original with
    | none => none
    | some o =>
      match o.format with
      | none => none
      | some f => if f = "" then none else some f
  let quality : Option Nat :=
    match fmt with
    | some f => if pyUpper f = "JPEG" ∨ pyUpper f = "JPG" then some 95 else none
    | none => none
  let subsampling : Option Nat :=
    match fmt with
    | some f => if pyUpper f = "JPEG" ∨ pyUpper f = "JPG" then some 0 else none
    | none => none
  match original with
  | none =>
    { format := fmt, quality := quality, subsampling := subsampling,
      icc_profile := none, exif := none }
  | some o =>
    { format := fmt, quality := quality, subsampling := subsampling,
      icc_profile := o.icc_profile, exif := o.exif }

/-- Embedding of `save_pillow_with_exif` (`flip_image.py` lines 51-74): build
the save keywords from the original handle and write the flipped pixels to
`out_path` (the `mkdir(parents=True, exist_ok=True)` of the output's parent has
no observable effect in this file model). -/
def save_pillow_with_exif (img : Pixels) (out_path : String)
    (original : Option ImageData) (fs : FS) : FS :=
  let kw := save_kwargs_for original
  fsWrite out_path
    (.image { pixels := img, format := kw.format,
              icc_profile := kw.icc_profile, exif := kw.exif }
      kw.quality kw.subsampling) fs

/-- Steps 3-5 of `process_file` on the pillow backend (`flip_image.py` lines
110-112): open, flip, save with metadata preservation. Any step may fail; the
result is the filesystem after the save. -/
def pillowPipeline (fs : FS) (in_path out_path mode : String) : Except String FS :=
  (imageOpen fs in_path).bind fun im =>
    (flip_pillow im.pixels mode).map fun flipped =>
      save_pillow_with_exif flipped out_path (some im) fs

/-- `cv2.flip` dispatch as written inline in `process_file` (`flip_image.py`
lines 95-102): flip codes 1 (left-right), 0 (top-bottom), -1 (both); the mode
string here is compared without lowercasing. -/
def cv2FlipDispatch (mode : String) (img : Pixels) : Except String Pixels :=
  if mode = "horizontal" then .ok (flipLeftRight img)
  else if mode = "vertical" then .ok (flipTopBottom img)
  else if mode = "both" then .ok (rotate180 img)
  else .error "Unknown flip mode"

/-- Steps 3-5 of `process_file` on the opencv backend (`flip_image.py` lines
87-107): the backend-availability check raises inside the try block;
`cv2.imdecode` returns `None` on undecodable bytes; the re-encoded output
carries no metadata. -/
def opencvInlinePipeline (cv2Available : Bool) (fs : FS)
    (in_path out_path mode : String) : Except String FS :=
  if ¬cv2Available then
    .error "opencv backend not available; install opencv-python or use pillow backend"
  else
    match fsRead fs in_path with
    | some (.image d _ _) =>
      (cv2FlipDispatch mode d.pixels).map fun flipped =>
        fsWrite out_path
          (.image { pixels := flipped, format := none,
                    icc_profile := none, exif := none } none none) fs
    | _ => .error "OpenCV failed to read image."

/-- The result of one `process_file` call: the returned boolean, the
filesystem afterwards, and the lines printed. -/
structure ProcResult where
  ok : Bool
  fs : FS
  log : List String
deriving DecidableEq, Repr
/-- The try-block body of `process_file`: which pipeline runs for a given
backend string (`flip_image.py` lines 87 and 108). -/
def processPipeline (cv2Available : Bool) (fs : FS)
    (in_path out_path mode backend : String) : Except String FS :=
  if backend = "opencv" then
    opencvInlinePipeline cv2Available fs in_path out_path mode
  else
    pillowPipeline fs in_path out_path mode

/-- Embedding of `process_file` (`flip_image.py` lines 77-117): input-existence
guard, overwrite guard, then the backend pipeline inside a try/except that
converts any exception into a logged `false` return. -/
def process_file (cv2Available : Bool) (fs : FS)
    (in_path out_path mode : String) (overwrite : Bool) (backend : String) :
    ProcResult :=
  if (fsRead fs in_path).isNone then
    { ok := false, fs := fs, log := ["[!] Input file not found: " ++ in_path] }
  else if ¬overwrite ∧ (fsRead fs out_path).isSome then
    { ok := false, fs := fs,
      log := ["[!] Output file already exists (use --overwrite to replace): "
                ++ out_path] }
  else
    match processPipeline cv2Available fs in_path out_path mode backend with
    | .ok fs2 => { ok := true, fs := fs2, log := ["[+] Saved: " ++ out_path] }
    | .error e =>
      { ok := false, fs := fs,
        log := ["[!] Failed to process " ++ in_path ++ ": " ++ e] }

/-- The final component of a path (pathlib `Path.name`): the characters after
the last slash. -/
def pathName (s : String) : String :=
  ⟨(s.data.reverse.takeWhile (· != '/')).reverse⟩

/-- The leading part of a path up to and including its last slash; empty for a
bare file name. -/
def pathParentPrefix (s : String) : String :=
  ⟨(s.data.reverse.dropWhile (· != '/')).reverse⟩

/-- Python `str.rfind(".")` on a character list: the index of the last dot. -/
def rfindDot (name : List Char) : Option Nat :=
  match name.reverse.findIdx? (· == '.') with
  | none => none
  | some j => some (name.length - 1 - j)

/-- pathlib `Path.suffix`: the final component from its last dot on, unless
that dot is the component's first or last character, in which case the suffix
is empty. -/
def pySuffix (s : String) : String :=
  let name := (pathName s).data
  match rfindDot name with
  | none => ""
  | some i => if 0 < i ∧ i < name.length - 1 then ⟨name.drop i⟩ else ""

/-- pathlib `Path.stem`: the final component with its suffix removed. -/
def pyStem (s : String) : String :=
  let name := (pathName s).data
  ⟨name.take (name.length - (pySuffix s).data.length)⟩

/-- pathlib `Path.with_name`: replace the final component, keeping the parent. -/
def withName (s newName : String) : String := pathParentPrefix s ++ newName

/-- pathlib `dir / name`. -/
def joinPath (a b : String) : String := a ++ "/" ++ b

/-- One directory entry of the input folder, as seen by `iterdir`: its file
name and whether it is a regular file. -/
structure DirEntry where
  name : String
  isFile : Bool
deriving DecidableEq, Repr
/-- Embedding of `is_image_file` (`flip_image.py` lines 120-121): a regular
file whose lowercased suffix is in `SUPPORTED_EXTS`. -/
def is_image_file (e : DirEntry) : Bool :=
  e.isFile && SUPPORTED_EXTS.contains (pyLower (pySuffix e.name))

/-- The order `sorted` uses on the entries: all candidate paths share the
`in_folder` prefix, so pathlib's path comparison reduces to comparing the
file names. -/
def entryLe (a b : DirEntry) : Bool := decide (a.name ≤ b.name)

/-- One `process_file` invocation as recorded by a run: its input path, output
path and returned boolean. -/
structure BatchCall where
  input : String
  output : String
  ok : Bool
deriving DecidableEq, Repr
/-- Result of a batch run: final filesystem, printed lines, and the
`process_file` invocations made, in order. -/
structure BatchResult where
  fs : FS
  log : List String
  calls : List BatchCall
deriving DecidableEq, Repr
/-- The loop body of `batch_process_folder` (`flip_image.py` lines 133-135):
derive the output path as `out_folder / name`, invoke `process_file`, and
continue regardless of its boolean result. -/
def batchStep (cv2Available : Bool) (in_folder out_folder mode : String)
    (overwrite : Bool) (backend : String) (acc : BatchResult) (e : DirEntry) :
    BatchResult :=
  let inp := joinPath in_folder e.name
  let outp := joinPath out_folder e.name
  let r := process_file cv2Available acc.fs inp outp mode overwrite backend
  { fs := r.fs, log := acc.log ++ r.log,
    calls := acc.calls ++ [{ input := inp, output := outp, ok := r.ok }] }

/-- Embedding of `batch_process_folder` (`flip_image.py` lines 124-135):
validate the folder, filter the listing through `is_image_file`, sort, and
process each file in turn (the `out_folder.mkdir` call has no observable
effect in this file model). -/
def batch_process_folder (cv2Available : Bool) (fs : FS)
    (inFolderExists inFolderIsDir : Bool) (listing : List DirEntry)
    (in_folder out_folder mode : String) (overwrite : Bool) (backend : String) :
    BatchResult :=
  if ¬(inFolderExists ∧ inFolderIsDir) then
    { fs := fs,
      log := ["[!] Input folder not found or not a directory: " ++ in_folder],
      calls := [] }
  else
    let files := (listing.filter is_image_file).mergeSort entryLe
    if files.isEmpty then
      { fs := fs, log := ["[!] No supported image files found in input folder."],
        calls := [] }
    else
      files.foldl (batchStep cv2Available in_folder out_folder mode overwrite backend)
        { fs := fs, log := [], calls := [] }

/-- Python truthiness of an optional string argument: `None` and the empty
string are falsy. -/
def pyTruthy (o : Option String) : Bool :=
  match o with
  | none => false
  | some s => s != ""

/-- The parsed CLI arguments (`parse_args`, `flip_image.py` lines 138-148).
`mode` and `backend` come from closed `choices` lists and `overwrite` is a
store-true flag. -/
structure Args where
  input : Option String
  input_folder : Option String
  output : Option String
  output_folder : Option String
  mode : String
  overwrite : Bool
  backend : String
deriving Repr
/-- The runtime environment `main` observes: whether the optional `cv2` import
at module load succeeded, the filesystem, and - for batch mode - the input
folder's status and listing. -/
structure Env where
  cv2Available : Bool
  fs : FS
  inFolderExists : Bool
  inFolderIsDir : Bool
  listing : List DirEntry
deriving Repr
/-- The observable outcome of `main`: the `sys.exit` code if any (`none` means
main fell through and the process exits 0), the filesystem, stdout and stderr
lines, the `process_file` invocations made, and the backend string every
invocation received. -/
structure MainResult where
  exitCode : Option Nat
  fs : FS
  stdoutLog : List String
  stderrLog : List String
  calls : List BatchCall
  effectiveBackend : String
deriving Repr
/-- The one-time fallback warning `main` prints to stderr
(`flip_image.py` line 155). -/
def fallbackWarning : String :=
  "[!] OpenCV backend selected but opencv-python not installed. Falling back to pillow."

/-- The backend-resolution prologue of `main` (`flip_image.py` lines 153-156):
lowercase the requested backend; if opencv is requested but unavailable, warn
once on stderr and degrade to pillow for the whole run. -/
def resolveBackend (requested : String) (cv2Available : Bool) :
    String × List String :=
  let b := pyLower requested
  if b = "opencv" ∧ ¬cv2Available then ("pillow", [fallbackWarning]) else (b, [])

/-- The default single-file output path (`flip_image.py` lines 166-169):
`in_path.with_name(in_path.stem + "_flipped_" + mode + in_path.suffix)`. -/
def defaultOutputPath (in_path mode : String) : String :=
  withName in_path (pyStem in_path ++ "_flipped_" ++ mode ++ pySuffix in_path)

/-- Embedding of `main` (`flip_image.py` lines 151-181): resolve the backend,
then dispatch to single-file or batch processing. -/
def main (env : Env) (args : Args) : MainResult :=
  let rb := resolveBackend args.backend env.cv2Available
  let backend := rb.1
  let warn := rb.2
  if pyTruthy args.input then
    let in_path := args.input.getD ""
    if (fsRead env.fs in_path).isNone then
      { exitCode := some 2, fs := env.fs, stdoutLog := [],
        stderrLog := warn ++ ["[!] Input file does not exist: " ++ in_path],
        calls := [], effectiveBackend := backend }
    else
      let out_path :=
        if pyTruthy args.output then args.output.getD ""
        else defaultOutputPath in_path args.mode
      let r := process_file env.cv2Available env.fs in_path out_path args.mode
          args.overwrite backend
      { exitCode := if r.ok then none else some 1, fs := r.fs,
        stdoutLog := r.log, stderrLog := warn,
        calls := [{ input := in_path, output := out_path, ok := r.ok }],
        effectiveBackend := backend }
  else
    if ¬pyTruthy args.output_folder then
      { exitCode := some 2, fs := env.fs, stdoutLog := [],
        stderrLog := warn
          ++ ["[!] --output-folder is required when using --input-folder"],
        calls := [], effectiveBackend := backend }
    else
      let r := batch_process_folder env.cv2Available env.fs env.inFolderExists
          env.inFolderIsDir env.listing (args.input_folder.getD "")
          (args.output_folder.getD "") args.mode args.overwrite backend
      { exitCode := none, fs := r.fs, stdoutLog := r.log, stderrLog := warn,
        calls := r.calls, effectiveBackend := backend }

/-- The names bound at module scope of `flip_image.py` (lines 1-13 and the
top-level `def` statements): the imports `argparse`, `Path`, `Image`,
`ExifTags`, `sys`, the guarded `import cv2` (bound only when the import
succeeds), `_cv2_available`, `SUPPORTED_EXTS`, and the module's functions.
The `import numpy as np` on line 91 is local to `process_file` and binds
nothing at module scope. -/
def moduleGlobals (cv2Available : Bool) : List String :=
  ["argparse", "Path", "Image", "ExifTags", "sys"]
    ++ (if cv2Available then ["cv2"] else [])
    ++ ["_cv2_available", "SUPPORTED_EXTS", "flip_pillow",
        "flip_opencv_image_bytes", "save_pillow_with_exif", "process_file",
        "is_image_file", "batch_process_folder", "parse_args", "main"]

/-- The Python builtins a global name lookup falls back to; `np` is not one. -/
def pythonBuiltins : List String :=
  ["print", "len", "open", "range", "str", "int", "float", "bool", "list",
   "dict", "set", "tuple", "Exception", "ValueError", "RuntimeError",
   "TypeError", "FileNotFoundError", "isinstance", "sorted"]

/-- Resolution of a free (never locally assigned) name inside a function body
of `flip_image.py`: module globals, then builtins. -/
def resolvesGlobally (cv2Available : Bool) (name : String) : Bool :=
  (moduleGlobals cv2Available).contains name || pythonBuiltins.contains name

/-- Embedding of `flip_opencv_image_bytes` (`flip_image.py` lines 29-48). Its
first statement after the availability guard evaluates `np.fromfile(...)`;
`np` is never assigned in the function, so it is looked up as a global and, if
unbound, raises `NameError` before `cv2.imdecode` runs. The rest of the body
(the decode, the `cv2.flip` dispatch, the `imencode`/`tofile` write) is
embedded behind that check. -/
def flip_opencv_image_bytes (cv2Available : Bool) (fs : FS)
    (img_path out_path mode : String) : Except String FS :=
  if ¬cv2Available then
    .error "OpenCV backend requested but opencv-python is not installed."
  else if ¬resolvesGlobally cv2Available "np" then
    .error "NameError: name np is not defined"
  else
    match fsRead fs img_path with
    | some (.image d _ _) =>
      (cv2FlipDispatch mode d.pixels).map fun flipped =>
        fsWrite out_path
          (.image { pixels := flipped, format := none,
                    icc_profile := none, exif := none } none none) fs
    | _ => .error ("Failed to read image via OpenCV: " ++ img_path)

theorem pyLower_horizontal : pyLower "horizontal" = "horizontal" := by decide

theorem pyLower_vertical : pyLower "vertical" = "vertical" := by decide

theorem pyLower_both : pyLower "both" = "both" := by decide

theorem flip_pillow_horizontal (img : Pixels) :
    flip_pillow img "horizontal" = .ok (flipLeftRight img) := by
  simp [flip_pillow, pyLower_horizontal]

theorem flip_pillow_vertical (img : Pixels) :
    flip_pillow img "vertical" = .ok (flipTopBottom img) := by
  simp [flip_pillow, pyLower_vertical]

theorem flip_pillow_both (img : Pixels) :
    flip_pillow img "both" = .ok (rotate180 img) := by
  simp [flip_pillow, pyLower_both]

theorem flipLeftRight_involutive (img : Pixels) :
    flipLeftRight (flipLeftRight img) = img := by
  simp [flipLeftRight, List.map_map, Function.comp_def]

theorem flipTopBottom_involutive (img : Pixels) :
    flipTopBottom (flipTopBottom img) = img := by
  simp [flipTopBottom]

theorem rotate180_involutive (img : Pixels) :
    rotate180 (rotate180 img) = img := by
  simp [rotate180, List.map_reverse, List.map_map, Function.comp_def]

/-- C3: for every image and every mode in {horizontal, vertical, both},
applying `flip_pillow` twice with the same mode restores the original pixel
arrangement: `flip(flip(I, m), m) == I`. -/
theorem flip_involution (img : Pixels) (m : String)
    (h : m = "horizontal" ∨ m = "vertical" ∨ m = "both") :
    (flip_pillow img m).bind (fun j => flip_pillow j m) = Except.ok img := by
  rcases h with h | h | h <;> subst h
  · simp [flip_pillow_horizontal, Except.bind, flipLeftRight_involutive]
  · simp [flip_pillow_vertical, Except.bind, flipTopBottom_involutive]
  · simp [flip_pillow_both, Except.bind, rotate180_involutive]

/-- Witness for C3 at a concrete image and mode. -/
theorem flip_involution_witness :
    (flip_pillow [[1, 2], [3, 4]] "vertical").bind
      (fun j => flip_pillow j "vertical") = Except.ok [[1, 2], [3, 4]] :=
  flip_involution [[1, 2], [3, 4]] "vertical" (Or.inr (Or.inl rfl))

/-- C4: for every image, flipping with mode "both" is an exact 180-degree
rotation and equals flipping horizontally then vertically, in either order. -/
theorem flip_both_commutes (img : Pixels) :
    flip_pillow img "both" = Except.ok (rotate180 img)
    ∧ flip_pillow img "both"
        = (flip_pillow img "horizontal").bind (fun j => flip_pillow j "vertical")
    ∧ flip_pillow img "both"
        = (flip_pillow img "vertical").bind (fun j => flip_pillow j "horizontal") := by
  refine ⟨flip_pillow_both img, ?_, ?_⟩
  · simp [flip_pillow_horizontal, flip_pillow_vertical, flip_pillow_both,
      Except.bind, rotate180, flipLeftRight, flipTopBottom, List.map_reverse]
  · simp [flip_pillow_horizontal, flip_pillow_vertical, flip_pillow_both,
      Except.bind, rotate180, flipLeftRight, flipTopBottom, List.map_reverse]

/-- C1: with the overwrite flag false and the output path already present,
`process_file` returns false and leaves the filesystem - in particular the
bytes at the output path - unchanged, for every input path, mode and backend. -/
theorem processFile_existing_output_untouched (cv2Available : Bool) (fs : FS)
    (in_path out_path mode backend : String)
    (h : (fsRead fs out_path).isSome = true) :
    (process_file cv2Available fs in_path out_path mode false backend).ok = false
    ∧ (process_file cv2Available fs in_path out_path mode false backend).fs = fs := by
  unfold process_file
  by_cases hin : (fsRead fs in_path).isNone
  · simp [hin]
  · simp [hin, h]

/-- Witness for C1: a filesystem where the output path holds a file. -/
theorem processFile_existing_output_untouched_witness :
    (fsRead [("out.jpg", FileData.corrupt [0])] "out.jpg").isSome = true
    ∧ (process_file true [("out.jpg", FileData.corrupt [0])]
        "in.jpg" "out.jpg" "horizontal" false "pillow").ok = false
    ∧ (process_file true [("out.jpg", FileData.corrupt [0])]
        "in.jpg" "out.jpg" "horizontal" false "pillow").fs
        = [("out.jpg", FileData.corrupt [0])] :=
  ⟨by decide,
    (processFile_existing_output_untouched true [("out.jpg", FileData.corrupt [0])]
      "in.jpg" "out.jpg" "horizontal" "pillow" (by decide)).1,
    (processFile_existing_output_untouched true [("out.jpg", FileData.corrupt [0])]
      "in.jpg" "out.jpg" "horizontal" "pillow" (by decide)).2⟩

/-- C2: whenever the backend pipeline (decode, flip, save) fails with any
exception `e`, `process_file` catches it, logs exactly
`[!] Failed to process <input>: <reason>`, returns false, and leaves the
filesystem unchanged. Since `process_file` is a total function into
`ProcResult`, no such exception propagates out of it. -/
theorem processFile_catches_pipeline_errors (cv2Available : Bool) (fs : FS)
    (in_path out_path mode backend : String) (overwrite : Bool) (e : String)
    (hin : (fsRead fs in_path).isSome = true)
    (hout : overwrite = true ∨ (fsRead fs out_path).isSome = false)
    (herr : processPipeline cv2Available fs in_path out_path mode backend
              = .error e) :
    process_file cv2Available fs in_path out_path mode overwrite backend
      = { ok := false, fs := fs,
          log := ["[!] Failed to process " ++ in_path ++ ": " ++ e] } := by
  unfold process_file
  rcases hout with hout | hout <;>
    simp [Option.isNone_iff_eq_none, Option.isSome_iff_exists] at hin hout <;>
    obtain ⟨d, hd⟩ := hin <;>
    simp [hd, hout, herr]

/-- Witness for C2: a corrupt input file makes the pillow pipeline raise a
decode error, which `process_file` converts to a logged false return. -/
theorem processFile_catches_pipeline_errors_witness :
    process_file true [("in.jpg", FileData.corrupt [1, 2])]
        "in.jpg" "out.jpg" "horizontal" false "pillow"
      = { ok := false, fs := [("in.jpg", FileData.corrupt [1, 2])],
          log := ["[!] Failed to process in.jpg: cannot identify image file in.jpg"] } :=
  processFile_catches_pipeline_errors true [("in.jpg", FileData.corrupt [1, 2])]
    "in.jpg" "out.jpg" "horizontal" "pillow" false
    "cannot identify image file in.jpg"
    (by decide) (Or.inr (by decide)) rfl

/-- C5: when the original handle has format JPEG/JPG (the code compares the
uppercased format tag), the save keywords carry quality 95 and subsampling 0;
the original's ICC profile and EXIF blobs - present or absent - are copied
verbatim into the keywords, and the file written at the output path holds the
flipped pixels together with exactly that metadata. -/
theorem save_jpeg_metadata_policy (img : Pixels) (out_path : String) (fs : FS)
    (o : ImageData) (f : String)
    (hf : o.format = some f)
    (hjpeg : pyUpper f = "JPEG" ∨ pyUpper f = "JPG") :
    (save_kwargs_for (some o)).quality = some 95
    ∧ (save_kwargs_for (some o)).subsampling = some 0
    ∧ (save_kwargs_for (some o)).icc_profile = o.icc_profile
    ∧ (save_kwargs_for (some o)).exif = o.exif
    ∧ fsRead (save_pillow_with_exif img out_path (some o) fs) out_path
        = some (FileData.image
            { pixels := img, format := some f,
              icc_profile := o.icc_profile, exif := o.exif }
            (some 95) (some 0)) := by
  have hne : f ≠ "" := by
    rintro rfl
    rcases hjpeg with h | h <;> exact absurd h (by decide)
  have hkw : save_kwargs_for (some o)
      = { format := some f, quality := some 95, subsampling := some 0,
          icc_profile := o.icc_profile, exif := o.exif } := by
    simp [save_kwargs_for, hf, if_neg hne, if_pos hjpeg]
  refine ⟨?_, ?_, ?_, ?_, ?_⟩ <;>
    simp [hkw, save_pillow_with_exif, fsWrite, fsRead]

/-- Witness for C5: a JPEG original with an ICC profile and no EXIF block. -/
theorem save_jpeg_metadata_policy_witness :
    fsRead (save_pillow_with_exif [[9]] "out.jpg"
        (some { pixels := [[1]], format := some "JPEG",
                icc_profile := some [7, 7], exif := none }) []) "out.jpg"
      = some (FileData.image
          { pixels := [[9]], format := some "JPEG",
            icc_profile := some [7, 7], exif := none }
          (some 95) (some 0)) :=
  (save_jpeg_metadata_policy [[9]] "out.jpg" []
    { pixels := [[1]], format := some "JPEG",
      icc_profile := some [7, 7], exif := none }
    "JPEG" rfl (Or.inl (by decide))).2.2.2.2

/-- C7 counterexample: the mode string "HORIZONTAL" is not one of the three
recognized values horizontal/vertical/both, yet `flip_pillow` succeeds on it
(the code lowercases the mode before comparing), returning a flipped image
instead of failing. -/
theorem flip_unrecognized_mode_counterexample :
    ¬("HORIZONTAL" = "horizontal" ∨ "HORIZONTAL" = "vertical"
        ∨ "HORIZONTAL" = "both")
    ∧ flip_pillow [[1, 2]] "HORIZONTAL" = Except.ok [[2, 1]] :=
  ⟨by decide, rfl⟩

/-- C7 (amended): for every image and every mode string whose lowercased form
is not one of horizontal/vertical/both, `flip_pillow` fails with `ValueError`
rather than returning an image. -/
theorem flip_invalid_mode_raises (img : Pixels) (mode : String)
    (h1 : pyLower mode ≠ "horizontal") (h2 : pyLower mode ≠ "vertical")
    (h3 : pyLower mode ≠ "both") :
    flip_pillow img mode
      = Except.error "Unknown mode. Choose from horizontal|vertical|both" := by
  simp [flip_pillow, h1, h2, h3]

/-- Witness for the amended C7 at the unrecognized mode "diagonal". -/
theorem flip_invalid_mode_raises_witness :
    flip_pillow [[1]] "diagonal"
      = Except.error "Unknown mode. Choose from horizontal|vertical|both" :=
  flip_invalid_mode_raises [[1]] "diagonal" (by decide) (by decide) (by decide)

theorem batch_foldl_calls (cv2 : Bool) (inf outf mode : String) (ow : Bool)
    (be : String) (l : List DirEntry) (acc : BatchResult) :
    ((l.foldl (batchStep cv2 inf outf mode ow be) acc).calls).map
        (fun c => (c.input, c.output))
      = acc.calls.map (fun c => (c.input, c.output))
          ++ l.map (fun e => (joinPath inf e.name, joinPath outf e.name)) := by
  induction l generalizing acc with
  | nil => simp
  | cons e rest ih =>
    rw [List.foldl_cons, ih]
    simp [batchStep]

theorem entryLe_trans (a b c : DirEntry) :
    entryLe a b → entryLe b c → entryLe a c := by
  simp only [entryLe, decide_eq_true_eq]
  exact le_trans

theorem entryLe_total (a b : DirEntry) : entryLe a b || entryLe b a := by
  simp only [entryLe, Bool.or_eq_true, decide_eq_true_eq]
  exact le_total a.name b.name

/-- C6: for an existing input directory, the batch walker selects exactly the
direct regular-file entries whose extension (lowercased) is in the supported
set, and its `process_file` invocations are precisely those entries in sorted
file-name order, each with output path `out_folder / name` - one invocation
per selected entry regardless of the boolean each one returns, so one file's
failure never stops the rest. -/
theorem batch_selection_and_order (cv2 : Bool) (fs : FS)
    (listing : List DirEntry) (in_folder out_folder mode : String) (ow : Bool)
    (be : String) :
    (∀ e, e ∈ (listing.filter is_image_file).mergeSort entryLe
        ↔ e ∈ listing ∧ e.isFile = true
            ∧ SUPPORTED_EXTS.contains (pyLower (pySuffix e.name)) = true)
    ∧ ((listing.filter is_image_file).mergeSort entryLe).Pairwise
        (fun a b => a.name ≤ b.name)
    ∧ ((batch_process_folder cv2 fs true true listing in_folder out_folder
          mode ow be).calls).map (fun c => (c.input, c.output))
        = ((listing.filter is_image_file).mergeSort entryLe).map
            (fun e => (joinPath in_folder e.name, joinPath out_folder e.name)) := by
  refine ⟨?_, ?_, ?_⟩
  · intro e
    simp [List.mem_filter, is_image_file, and_assoc]
  · exact (List.sorted_mergeSort entryLe_trans entryLe_total
        (listing.filter is_image_file)).imp (by simp [entryLe])
  · unfold batch_process_folder
    simp only [and_self, not_true_eq_false, if_false]
    by_cases h : ((listing.filter is_image_file).mergeSort entryLe).isEmpty
    · rw [if_pos h]
      rw [List.isEmpty_iff] at h
      simp [h]
    · rw [if_neg h, batch_foldl_calls]
      simp

theorem pyLower_opencv : pyLower "opencv" = "opencv" := by decide

theorem inputMissingMsg_ne_fallbackWarning (s : String) :
    "[!] Input file does not exist: " ++ s ≠ fallbackWarning := by
  intro h
  have h2 := congrArg (fun t : String => t.data.take 5) h
  simp only [String.data_append] at h2
  rw [List.take_append_of_le_length (by decide)] at h2
  exact absurd h2 (by decide)

theorem outputFolderMsg_ne_fallbackWarning :
    "[!] --output-folder is required when using --input-folder"
      ≠ fallbackWarning := by decide

/-- C8: when the opencv backend is requested and cv2 is unavailable, `main`
degrades the effective backend - the one every `process_file` invocation of
the run receives - to pillow, and the fallback warning is the first line on
the error stream and appears there exactly once, independent of how many
files the run processes. -/
theorem backend_fallback_once (env : Env) (args : Args)
    (hb : args.backend = "opencv") (hcv : env.cv2Available = false) :
    (main env args).effectiveBackend = "pillow"
    ∧ (main env args).stderrLog.head? = some fallbackWarning
    ∧ (main env args).stderrLog.count fallbackWarning = 1 := by
  have hres : resolveBackend args.backend env.cv2Available
      = ("pillow", [fallbackWarning]) := by
    rw [hb, hcv]
    simp [resolveBackend, pyLower_opencv]
  unfold main
  rw [hres]
  by_cases h1 : pyTruthy args.input
  · simp only [h1, if_true]
    by_cases h2 : (fsRead env.fs (args.input.getD "")).isNone
    · simp [h2, List.count_cons, inputMissingMsg_ne_fallbackWarning]
    · simp [h2, List.count_cons]
  · simp only [h1, Bool.false_eq_true, if_false]
    by_cases h2 : pyTruthy args.output_folder
    · simp [h2, List.count_cons]
    · simp [h2, List.count_cons, outputFolderMsg_ne_fallbackWarning]

/-- Witness for C8: a two-file batch run with opencv requested and cv2
unavailable degrades to pillow with a single warning line. -/
theorem backend_fallback_once_witness :
    (main
        { cv2Available := false, fs := [], inFolderExists := true,
          inFolderIsDir := true,
          listing := [{ name := "a.png", isFile := true },
                      { name := "b.png", isFile := true }] }
        { input := none, input_folder := some "in", output := none,
          output_folder := some "out", mode := "horizontal",
          overwrite := false, backend := "opencv" }).effectiveBackend = "pillow"
    ∧ (main
        { cv2Available := false, fs := [], inFolderExists := true,
          inFolderIsDir := true,
          listing := [{ name := "a.png", isFile := true },
                      { name := "b.png", isFile := true }] }
        { input := none, input_folder := some "in", output := none,
          output_folder := some "out", mode := "horizontal",
          overwrite := false, backend := "opencv" }).stderrLog.count
        fallbackWarning = 1 :=
  ⟨(backend_fallback_once
      { cv2Available := false, fs := [], inFolderExists := true,
        inFolderIsDir := true,
        listing := [{ name := "a.png", isFile := true },
                    { name := "b.png", isFile := true }] }
      { input := none, input_folder := some "in", output := none,
        output_folder := some "out", mode := "horizontal",
        overwrite := false, backend := "opencv" } rfl rfl).1,
    (backend_fallback_once
      { cv2Available := false, fs := [], inFolderExists := true,
        inFolderIsDir := true,
        listing := [{ name := "a.png", isFile := true },
                    { name := "b.png", isFile := true }] }
      { input := none, input_folder := some "in", output := none,
        output_folder := some "out", mode := "horizontal",
        overwrite := false, backend := "opencv" } rfl rfl).2.2⟩

/-- C9: in single-file mode with no `--output`, the output path handed to
`process_file` is the input path with its final component replaced by the
input's stem, `_flipped_`, the mode, and the input's extension. -/
theorem default_output_path_shape (env : Env) (args : Args) (in_path : String)
    (hin : args.input = some in_path) (hne : in_path ≠ "")
    (hout : args.output = none)
    (hex : (fsRead env.fs in_path).isSome = true) :
    (main env args).calls.map (fun c => c.output)
      = [withName in_path
          (pyStem in_path ++ "_flipped_" ++ args.mode ++ pySuffix in_path)] := by
  have htr : pyTruthy args.input = true := by
    rw [hin]
    simpa [pyTruthy] using hne
  have hnn : (fsRead env.fs in_path).isNone = false := by
    rcases Option.isSome_iff_exists.mp hex with ⟨d, hd⟩
    simp [hd]
  unfold main
  rw [htr]
  simp only [if_true, hin, Option.getD_some, hnn, Bool.false_eq_true, if_false,
    hout]
  simp [pyTruthy, defaultOutputPath]

/-- Witness for C9: `photo.jpg` with mode `vertical` and no `--output` yields
`photo_flipped_vertical.jpg` beside the input. -/
theorem default_output_path_shape_witness :
    (main
        { cv2Available := true,
          fs := [("photo.jpg", FileData.corrupt [3])],
          inFolderExists := false, inFolderIsDir := false, listing := [] }
        { input := some "photo.jpg", input_folder := none, output := none,
          output_folder := none, mode := "vertical", overwrite := false,
          backend := "pillow" }).calls.map (fun c => c.output)
      = ["photo_flipped_vertical.jpg"] := by
  have h := default_output_path_shape
    { cv2Available := true, fs := [("photo.jpg", FileData.corrupt [3])],
      inFolderExists := false, inFolderIsDir := false, listing := [] }
    { input := some "photo.jpg", input_folder := none, output := none,
      output_folder := none, mode := "vertical", overwrite := false,
      backend := "pillow" }
    "photo.jpg" rfl (by decide) rfl (by decide)
  rw [h]
  decide

/-- C10: with OpenCV available, every call of `flip_opencv_image_bytes` fails
with `NameError` - `np` resolves neither in the module globals (numpy is only
imported locally inside `process_file`) nor in the builtins - before any
decoding happens and regardless of the filesystem, so the function can never
write an output file. -/
theorem opencv_bytes_always_nameerror (fs : FS) (img_path out_path mode : String) :
    resolvesGlobally true "np" = false
    ∧ flip_opencv_image_bytes true fs img_path out_path mode
        = Except.error "NameError: name np is not defined"
    ∧ ∀ fs2 : FS, flip_opencv_image_bytes true fs img_path out_path mode
        ≠ Except.ok fs2 := by
  have hnp : resolvesGlobally true "np" = false := by decide
  have h2 : flip_opencv_image_bytes true fs img_path out_path mode
      = Except.error "NameError: name np is not defined" := by
    simp [flip_opencv_image_bytes, hnp]
  refine ⟨hnp, h2, ?_⟩
  intro fs2 h
  rw [h2] at h
  exact Except.noConfusion h

end FlipImage

